import Mathlib

/-!
Shallow embedding of the product-catalog cache and the Redis cart store of
the plar-prog2270 service (package `redis`, file with `AddProductsToCache`,
`CacheSingleProduct`, `GetCart`, `AddToCart`, `UpdateCartItem`,
`RemoveFromCart`, `calculateCartTotals`, `saveCartToRedis`, and the product
handlers `EditProductBySKU` / `DeleteProductBySKU` / `CreateNewProducts`).

Modelling conventions, applied uniformly:
* Go `float64` values are modelled as exact rationals (`ℚ`); the float
  literals `0.10` and `5.99` of the source become the exact rationals
  `0.10` and `5.99`.
* The Redis store is a finite association list from structured keys to
  structured values.  The string keys built in the source with
  `fmt.Sprintf` (`product:{sku}`, `sku:{sku}`, `category:{cat}`,
  `products:recent`, `cart:{sid}`, `cart:{sid}:item:{sku}`) are modelled by
  the constructors of `RKey`; distinct constructors model the distinct
  key-prefix namespaces.
* `json.Marshal` of a product is modelled by the value constructor
  `RVal.prodJSON`, with `json.Unmarshal` as its left inverse (the
  behaviour of Go `encoding/json` on the exported `Product` struct).
* Hash-field strings written with `fmt.Sprintf("%.2f", x)` are modelled by
  `HVal.f2 (round2 x)` — the formatting rounds the value to two decimals
  (round half to even) and `strconv.ParseFloat` recovers exactly that
  rounded value; `%d` fields are modelled by `HVal.int` and plain string
  fields by `HVal.s`.
* Key TTLs (`Expire` calls) are not tracked in the store state; they do
  not affect any of the value-level properties below.  The `EXPIRE`
  commands do appear in the command-trace model used for the atomicity
  and read-only properties.
* `time.Now()` timestamps are passed in as explicit string arguments.
-/

namespace PlarCache

/-- Cart item snapshot (`models.CartItem`, `pkg/models/cart.go`). -/
structure CartItem where
  ProductID : String
  SKU : String
  ProductName : String
  Price : ℚ
  Quantity : Int
  Subtotal : ℚ
  AddedAt : String
deriving DecidableEq

/-- Session cart (`models.Cart`, `pkg/models/cart.go`).  The Go
`map[string]*CartItem` keyed by SKU is modelled as an association list. -/
structure Cart where
  SessionID : String
  Items : List (String × CartItem)
  Subtotal : ℚ
  Tax : ℚ
  Shipping : ℚ
  Total : ℚ
  ItemCount : Int
  LastUpdated : String
  ExpiresAt : String
deriving DecidableEq

/-- Per-warehouse stock counts (`models.Stock`). -/
structure Stock where
  WarehouseMain : Int
  WarehouseEast : Int
  WarehouseWest : Int
  Total : Int
deriving DecidableEq

/-- Review aggregate (`models.Ratings`). -/
structure Ratings where
  Average : ℚ
  Count : Int
deriving DecidableEq

/-- Catalog product (`models.Product`, `pkg/models/product.go`).  The
`bson.ObjectID` is modelled by its hex string; `time.Time` fields by their
RFC3339 strings; the attribute map by an association list. -/
structure Product where
  ID : String
  SKU : String
  Name : String
  Description : String
  Category : String
  Subcategory : String
  Brand : String
  Price : ℚ
  Currency : String
  Stock : PlarCache.Stock
  Attributes : List (String × String)
  Images : List String
  Ratings : PlarCache.Ratings
  Tags : List String
  Status : String
  CreatedAt : String
  UpdatedAt : String
deriving DecidableEq

/-- Structured Redis keys.  Each constructor models one of the
`fmt.Sprintf` key patterns of the source. -/
inductive RKey where
  | product (sku : String)
  | skuIdx (sku : String)
  | category (cat : String)
  | recent
  | cart (sessionID : String)
  | cartItem (sessionID : String) (sku : String)
deriving DecidableEq

/-- Redis hash-field values.  `s` models a plain string field, `f2` a
field written with `%.2f` (holding the already-rounded rational), `int` a
field written with `%d`. -/
inductive HVal where
  | s (v : String)
  | f2 (v : ℚ)
  | int (v : Int)
deriving DecidableEq

/-- Redis values: plain strings, marshalled product JSON bodies, lists,
and hashes. -/
inductive RVal where
  | str (v : String)
  | prodJSON (p : PlarCache.Product)
  | list (elems : List String)
  | hash (fields : List (String × HVal))
deriving DecidableEq

/-- The Redis keyspace: an association list of structured keys to values.
Writes keep keys duplicate-free; reads take the first binding. -/
def Store : Type := List (RKey × RVal)

/-- Reads a key (Redis `GET`-style access at the keyspace level). -/
def getK : Store → RKey → Option RVal
  | [], _ => none
  | (k', v) :: rest, k => if k' = k then some v else getK rest k

/-- Deletes a key (Redis `DEL`). -/
def delK : Store → RKey → Store
  | [], _ => []
  | (k', v) :: rest, k => if k' = k then delK rest k else (k', v) :: delK rest k

/-- Writes a key (Redis `SET`), replacing any previous binding. -/
def setK (s : Store) (k : RKey) (v : RVal) : Store :=
  (k, v) :: delK s k

/-- Redis `EXISTS` as a Boolean. -/
def existsK (s : Store) (k : RKey) : Bool :=
  (getK s k).isSome

/-- Reads the list stored at a key; non-list or absent values read as the
empty list (the source only pushes to keys it owns as lists). -/
def getList (s : Store) (k : RKey) : List String :=
  match getK s k with
  | some (.list xs) => xs
  | _ => []

/-- Redis `LPUSH` of one element. -/
def lpushK (s : Store) (k : RKey) (x : String) : Store :=
  setK s k (.list (x :: getList s k))

/-- Removes every occurrence of an element from a list. -/
def remAllStr : List String → String → List String
  | [], _ => []
  | y :: ys, x => if y = x then remAllStr ys x else y :: remAllStr ys x

/-- Redis `LREM key 0 x` (value-based removal of all occurrences); a
no-op when the key holds no list. -/
def lremK (s : Store) (k : RKey) (x : String) : Store :=
  match getK s k with
  | some (.list xs) => setK s k (.list (remAllStr xs x))
  | _ => s

/-- Redis `LTRIM key 0 (keep-1)`; a no-op when the key holds no list. -/
def ltrimK (s : Store) (k : RKey) (keep : Nat) : Store :=
  match getK s k with
  | some (.list xs) => setK s k (.list (xs.take keep))
  | _ => s

/-- Looks a field up in a hash. -/
def hGet : List (String × HVal) → String → Option HVal
  | [], _ => none
  | (f', v) :: rest, f => if f' = f then some v else hGet rest f

/-- Merges new hash fields over old ones (Redis `HSET` with a field map
sets the given fields and preserves the others). -/
def hMerge (old upd : List (String × HVal)) : List (String × HVal) :=
  upd ++ old.filter (fun e => (hGet upd e.1).isNone)

/-- Redis `HSET` with a field map.  On a key holding a non-hash value the
real client would return a type error; the source never does this, and
the model overwrites. -/
def hsetK (s : Store) (k : RKey) (fields : List (String × HVal)) : Store :=
  match getK s k with
  | some (.hash old) => setK s k (.hash (hMerge old fields))
  | _ => setK s k (.hash fields)

/-- Floor of a rational, computed from its reduced fraction. -/
def ratFloor (q : ℚ) : Int :=
  Int.fdiv q.num (q.den : Int)

/-- Rounds a rational to the nearest integer, ties to even (the rounding
used by Go `fmt` when formatting floats). -/
def roundHalfToEven (q : ℚ) : Int :=
  let f : Int := ratFloor q
  let r : ℚ := q - (f : ℚ)
  if r < 1/2 then f
  else if 1/2 < r then f + 1
  else if f % 2 = 0 then f else f + 1

/-- Models the `fmt.Sprintf("%.2f", x)` / `strconv.ParseFloat` round trip:
the value is rounded to two decimal places. -/
def round2 (q : ℚ) : ℚ :=
  (roundHalfToEven (q * 100) : ℚ) / 100

/-! ### Product cache operations (package `redis`) -/

/-- One `TxPipeline` of `CacheSingleProduct`: SET `product:{sku}` to the
marshalled body, SET `sku:{sku}` to the SKU itself, LPUSH the SKU onto its
category list, LPUSH onto `products:recent` and LTRIM that list to the
100 most recent.  The interleaved `Expire` calls only refresh TTLs. -/
def CacheSingleProduct (s : Store) (p : Product) : Store :=
  let s1 := setK s (.product p.SKU) (.prodJSON p)
  let s2 := setK s1 (.skuIdx p.SKU) (.str p.SKU)
  let s3 := lpushK s2 (.category p.Category) p.SKU
  let s4 := lpushK s3 .recent p.SKU
  ltrimK s4 .recent 100

/-- One `TxPipeline` of `RemoveProductFromCache`: DEL `product:{sku}`,
DEL `sku:{sku}`, LREM the SKU from its category list and from
`products:recent`. -/
def RemoveProductFromCache (s : Store) (p : Product) : Store :=
  let s1 := delK s (.product p.SKU)
  let s2 := delK s1 (.skuIdx p.SKU)
  let s3 := lremK s2 (.category p.Category) p.SKU
  lremK s3 .recent p.SKU

/-- `GetProductFromCache`: GET `product:{sku}` and unmarshal.  An absent
key (`redis.Nil`) or a non-unmarshalable value is an error, modelled as
`none`. -/
def GetProductFromCache (s : Store) (productSKU : String) : Option Product :=
  match getK s (.product productSKU) with
  | some (.prodJSON p) => some p
  | _ => none

/-- `GetProductBySKUFromCache`: GET `sku:{sku}`; on success the stored
string (the SKU itself) is fed to `GetProductFromCache`. -/
def GetProductBySKUFromCache (s : Store) (sku : String) : Option Product :=
  match getK s (.skuIdx sku) with
  | some (.str productID) => GetProductFromCache s productID
  | _ => none

/-- `AddProductsToCache`: caches each product in order with
`CacheSingleProduct`; on the first failure it returns
`failed to cache product {sku}: …` immediately.  Pipeline failures are
modelled by the oracle `pipelineFails`; the second component records, in
order, the SKUs for which a `CacheSingleProduct` call was attempted. -/
def AddProductsToCache (pipelineFails : Product → Bool) (s : Store) :
    List Product → Except String Store × List String
  | [] => (.ok s, [])
  | p :: rest =>
    if pipelineFails p then
      (.error ("failed to cache product " ++ p.SKU), [p.SKU])
    else
      let r := AddProductsToCache pipelineFails (CacheSingleProduct s p) rest
      (r.1, p.SKU :: r.2)

/-! ### Cart helpers (package `redis` and `models`) -/

/-- Lookup in the SKU-keyed item map (`cart.Items[sku]`). -/
def lookupItem : List (String × CartItem) → String → Option CartItem
  | [], _ => none
  | (k, it) :: rest, sku => if k = sku then some it else lookupItem rest sku

/-- Map assignment `cart.Items[sku] = item`: replaces the binding when the
key is present, otherwise appends a new binding. -/
def setItem : List (String × CartItem) → String → CartItem → List (String × CartItem)
  | [], sku, it => [(sku, it)]
  | (k, old) :: rest, sku, it =>
    if k = sku then (k, it) :: rest else (k, old) :: setItem rest sku it

/-- Map deletion `delete(cart.Items, sku)`. -/
def eraseItem : List (String × CartItem) → String → List (String × CartItem)
  | [], _ => []
  | (k, old) :: rest, sku =>
    if k = sku then eraseItem rest sku else (k, old) :: eraseItem rest sku

/-- Sum of `item.Subtotal` over the item map. -/
def itemsSubtotal (items : List (String × CartItem)) : ℚ :=
  (items.map (fun e => e.2.Subtotal)).sum

/-- Sum of `item.Quantity` over the item map. -/
def itemsQuantity (items : List (String × CartItem)) : Int :=
  (items.map (fun e => e.2.Quantity)).sum

/-- `calculateCartTotals`: recomputes `Subtotal`, `ItemCount`, `Tax`
(flat 10%), `Shipping` (5.99 when `0 < Subtotal < 50`, else 0) and
`Total` from the current items. -/
def calculateCartTotals (cart : Cart) : Cart :=
  let subtotal := itemsSubtotal cart.Items
  let itemCount := itemsQuantity cart.Items
  let tax := subtotal * 0.10
  let shipping : ℚ := if 0 < subtotal ∧ subtotal < 50 then 5.99 else 0
  { cart with
    Subtotal := subtotal, ItemCount := itemCount, Tax := tax,
    Shipping := shipping, Total := subtotal + tax + shipping }

/-- `createEmptyCart`: the fresh cart returned for a session with no cart
key; `now` and `expiresAt` model the two `time.Now()`-derived strings. -/
def createEmptyCart (sessionID now expiresAt : String) : Cart :=
  { SessionID := sessionID, Items := [], Subtotal := 0, Tax := 0,
    Shipping := 0, Total := 0, ItemCount := 0, LastUpdated := now,
    ExpiresAt := expiresAt }

/-- The in-memory part of `AddToCart` (part_006:323-347): create or update
the item (an existing item keeps its snapshotted `Price`, gets
`Quantity += quantity` and `Subtotal = Quantity * Price`; a new item
snapshots the product), then `calculateCartTotals` and refresh the
timestamps. -/
def addToCartBody (cart : Cart) (sku : String) (quantity : Int) (product : Product)
    (now expiresAt : String) : Cart :=
  let items :=
    match lookupItem cart.Items sku with
    | some existingItem =>
      setItem cart.Items sku
        { existingItem with
          Quantity := existingItem.Quantity + quantity,
          Subtotal := ((existingItem.Quantity + quantity : Int) : ℚ) * existingItem.Price }
    | none =>
      setItem cart.Items sku
        { ProductID := product.ID, SKU := product.SKU,
          ProductName := product.Name, Price := product.Price,
          Quantity := quantity, Subtotal := (quantity : ℚ) * product.Price,
          AddedAt := now }
  { calculateCartTotals { cart with Items := items } with
    LastUpdated := now, ExpiresAt := expiresAt }

/-! ### Store-level cart operations -/

/-- Reads a plain string hash field, keeping the default when the field
is absent. -/
def hGetStr (fields : List (String × HVal)) (f : String) (dflt : String) : String :=
  match hGet fields f with
  | some (.s v) => v
  | _ => dflt

/-- Reads a `%.2f`-formatted hash field through `strconv.ParseFloat`,
keeping the default when the field is absent or unparsable. -/
def hGetF2 (fields : List (String × HVal)) (f : String) (dflt : ℚ) : ℚ :=
  match hGet fields f with
  | some (.f2 v) => v
  | _ => dflt

/-- Reads a `%d`-formatted hash field through `strconv.Atoi`, keeping the
default when the field is absent or unparsable. -/
def hGetInt (fields : List (String × HVal)) (f : String) (dflt : Int) : Int :=
  match hGet fields f with
  | some (.int v) => v
  | _ => dflt

/-- Builds a `CartItem` from an item hash (part_006:239-267); every
absent field keeps its zero value. -/
def parseCartItem (fields : List (String × HVal)) : CartItem :=
  { ProductID := hGetStr fields "product_id" "",
    SKU := hGetStr fields "sku" "",
    ProductName := hGetStr fields "product_name" "",
    Price := hGetF2 fields "price" 0,
    Quantity := hGetInt fields "quantity" 0,
    Subtotal := hGetF2 fields "subtotal" 0,
    AddedAt := hGetStr fields "added_at" "" }

/-- The keys returned by `KEYS cart:{sid}:item:*`, in store order. -/
def cartItemKeys : Store → String → List RKey
  | [], _ => []
  | (k, _) :: rest, sid =>
    match k with
    | .cartItem sid2 sku =>
      if sid2 = sid then .cartItem sid2 sku :: cartItemKeys rest sid
      else cartItemKeys rest sid
    | _ => cartItemKeys rest sid

/-- Folds the item keys into the SKU-keyed item map
(`items[item.SKU] = item`). -/
def collectItems (s : Store) (keys : List RKey) : List (String × CartItem) :=
  keys.foldl
    (fun acc k =>
      match getK s k with
      | some (.hash fields) =>
        let item := parseCartItem fields
        setItem acc item.SKU item
      | _ => acc)
    []

/-- `GetCart`: when `EXISTS cart:{sid}` fails, return a fresh empty cart;
otherwise rebuild the cart from the metadata hash and the item hashes
found by the `KEYS` pattern. -/
def GetCart (s : Store) (sessionID now expiresAt : String) : Cart :=
  if existsK s (.cart sessionID) then
    let cartData :=
      match getK s (.cart sessionID) with
      | some (.hash fields) => fields
      | _ => []
    { SessionID := sessionID,
      Items := collectItems s (cartItemKeys s sessionID),
      Subtotal := hGetF2 cartData "subtotal" 0,
      Tax := hGetF2 cartData "tax" 0,
      Shipping := hGetF2 cartData "shipping" 0,
      Total := hGetF2 cartData "total" 0,
      ItemCount := hGetInt cartData "item_count" 0,
      LastUpdated := hGetStr cartData "last_updated" "",
      ExpiresAt := hGetStr cartData "expires_at" "" }
  else createEmptyCart sessionID now expiresAt

/-- The metadata hash written by `saveCartToRedis` (numeric fields are
formatted with `%.2f` / `%d`). -/
def cartMetadataFields (cart : Cart) : List (String × HVal) :=
  [("subtotal", .f2 (round2 cart.Subtotal)),
   ("tax", .f2 (round2 cart.Tax)),
   ("shipping", .f2 (round2 cart.Shipping)),
   ("total", .f2 (round2 cart.Total)),
   ("item_count", .int cart.ItemCount),
   ("last_updated", .s cart.LastUpdated),
   ("expires_at", .s cart.ExpiresAt)]

/-- The per-item hash written by `saveCartToRedis`. -/
def cartItemFields (item : CartItem) : List (String × HVal) :=
  [("product_id", .s item.ProductID),
   ("sku", .s item.SKU),
   ("product_name", .s item.ProductName),
   ("price", .f2 (round2 item.Price)),
   ("quantity", .int item.Quantity),
   ("subtotal", .f2 (round2 item.Subtotal)),
   ("added_at", .s item.AddedAt)]

/-- `saveCartToRedis`: HSET the metadata hash at `cart:{sid}`, then HSET
one hash per item at `cart:{sid}:item:{sku}` (each call issued
separately; the `Expire` calls only refresh TTLs). -/
def saveCartToRedis (s : Store) (cart : Cart) : Store :=
  let s1 := hsetK s (.cart cart.SessionID) (cartMetadataFields cart)
  cart.Items.foldl
    (fun acc e => hsetK acc (.cartItem cart.SessionID e.1) (cartItemFields e.2)) s1

/-- `AddToCart` (part_006:313-356): read the cart, apply the in-memory
update, recompute totals, save, and return the updated cart. -/
def AddToCart (s : Store) (sessionID sku : String) (quantity : Int)
    (product : Product) (now expiresAt : String) : Cart × Store :=
  let cart := GetCart s sessionID now expiresAt
  let cart1 := addToCartBody cart sku quantity product now expiresAt
  (cart1, saveCartToRedis s cart1)

/-- `UpdateCartItem` (part_006:359-399): fails with
`item not found in cart` when the SKU is absent; quantity 0 deletes the
item (dropping its Redis key immediately), a positive quantity overwrites
quantity and subtotal; then totals are recomputed and the cart saved. -/
def UpdateCartItem (s : Store) (sessionID sku : String) (quantity : Int)
    (now expiresAt : String) : Except String (Cart × Store) :=
  let cart := GetCart s sessionID now expiresAt
  match lookupItem cart.Items sku with
  | none => .error "item not found in cart"
  | some item =>
    let items :=
      if quantity = 0 then eraseItem cart.Items sku
      else setItem cart.Items sku
        { item with Quantity := quantity, Subtotal := (quantity : ℚ) * item.Price }
    let s2 := if quantity = 0 then delK s (.cartItem sessionID sku) else s
    let cart1 := { calculateCartTotals { cart with Items := items } with
                   LastUpdated := now, ExpiresAt := expiresAt }
    .ok (cart1, saveCartToRedis s2 cart1)

/-- `RemoveFromCart`: the alias `UpdateCartItem(…, 0)`. -/
def RemoveFromCart (s : Store) (sessionID sku : String)
    (now expiresAt : String) : Except String (Cart × Store) :=
  UpdateCartItem s sessionID sku 0 now expiresAt

/-! ### Command traces

Each Redis round trip of the source is recorded as a batch of primitive
commands: a `TxPipeline` … `Exec` sequence is one batch holding all its
queued commands, while every stand-alone client call is a batch of its
own.  Command payloads are elided; only the command kind and target key
matter for the atomicity and read-only properties. -/

/-- Primitive Redis commands issued by the source. -/
inductive Cmd where
  | setCmd (k : RKey)
  | delCmd (k : RKey)
  | lpushCmd (k : RKey)
  | lremCmd (k : RKey)
  | ltrimCmd (k : RKey)
  | expireCmd (k : RKey)
  | hsetCmd (k : RKey)
  | getCmd (k : RKey)
  | hgetallCmd (k : RKey)
  | existsCmd (k : RKey)
  | keysCmd (sessionID : String)
deriving DecidableEq

/-- Whether a command mutates the keyspace or a TTL. -/
def Cmd.isWrite : Cmd → Bool
  | .setCmd _ => true
  | .delCmd _ => true
  | .lpushCmd _ => true
  | .lremCmd _ => true
  | .ltrimCmd _ => true
  | .expireCmd _ => true
  | .hsetCmd _ => true
  | _ => false

/-- The batches issued by `CacheSingleProduct`: one `TxPipeline` holding
all seven commands. -/
def CacheSingleProductBatches (p : Product) : List (List Cmd) :=
  [[.setCmd (.product p.SKU), .setCmd (.skuIdx p.SKU),
    .lpushCmd (.category p.Category), .expireCmd (.category p.Category),
    .lpushCmd .recent, .ltrimCmd .recent, .expireCmd .recent]]

/-- The batches issued by `RemoveProductFromCache`: one `TxPipeline`
holding all four commands. -/
def RemoveProductFromCacheBatches (p : Product) : List (List Cmd) :=
  [[.delCmd (.product p.SKU), .delCmd (.skuIdx p.SKU),
    .lremCmd (.category p.Category), .lremCmd .recent]]

/-- The per-item batches of `saveCartToRedis`: each item's HSET and
EXPIRE are separate stand-alone calls. -/
def itemBatches (sid : String) : List (String × CartItem) → List (List Cmd)
  | [] => []
  | (sku, _) :: rest =>
    [.hsetCmd (.cartItem sid sku)] :: [.expireCmd (.cartItem sid sku)] ::
    itemBatches sid rest

/-- The batches issued by `saveCartToRedis` (part_006:464-509): the
metadata HSET, its EXPIRE, then per item an HSET and an EXPIRE — every
command a stand-alone call, no pipeline. -/
def saveCartToRedisBatches (cart : Cart) : List (List Cmd) :=
  [.hsetCmd (.cart cart.SessionID)] :: [.expireCmd (.cart cart.SessionID)] ::
  itemBatches cart.SessionID cart.Items

/-- The commands issued by `GetCart`: EXISTS, and when the cart key
exists, HGETALL of the metadata, KEYS, and one HGETALL per item key. -/
def GetCartCmds (s : Store) (sessionID : String) : List Cmd :=
  if existsK s (.cart sessionID) then
    .existsCmd (.cart sessionID) :: .hgetallCmd (.cart sessionID) ::
    .keysCmd sessionID :: (cartItemKeys s sessionID).map (fun k => .hgetallCmd k)
  else
    [.existsCmd (.cart sessionID)]

/-! ### Handler boundary (product write paths, part_000)

Only the post-database tail of the three product write handlers is
modelled: the database outcome arrives as a parameter, and the model
records the HTTP response together with the warnings that would be
logged.  In the source the cache error is consumed by a `log.Printf`
and never reaches the response. -/

/-- Outcome of the MongoDB step preceding the cache step. -/
inductive StoreResult where
  | ok (p : Product)
  | notFound
  | storeErr
deriving DecidableEq

/-- The response data the handler sends: status code, success flag and
the `X-Cache` header. -/
structure HttpResponse where
  status : Nat
  success : Bool
  xCache : Option String
deriving DecidableEq

/-- Tail of `EditProductBySKU` (part_000:207-232): on database success
the cache refresh failure is only logged and the handler still returns
200 with `X-Cache: REFRESHED`. -/
def EditProductBySKU (db : StoreResult) (cacheFails : Bool) :
    HttpResponse × List String :=
  match db with
  | .notFound => ({ status := 404, success := false, xCache := none }, [])
  | .storeErr => ({ status := 500, success := false, xCache := none }, [])
  | .ok _ =>
    ({ status := 200, success := true, xCache := some "REFRESHED" },
     if cacheFails then ["Warning: Failed to update product cache in Redis"] else [])

/-- Tail of `DeleteProductBySKU` (part_000:248-276): on database success
the cache eviction failure is only logged and the handler still returns
200 with `X-Cache: DELETED`. -/
def DeleteProductBySKU (db : StoreResult) (cacheFails : Bool) :
    HttpResponse × List String :=
  match db with
  | .notFound => ({ status := 404, success := false, xCache := none }, [])
  | .storeErr => ({ status := 500, success := false, xCache := none }, [])
  | .ok _ =>
    ({ status := 200, success := true, xCache := some "DELETED" },
     if cacheFails then ["Warning: Failed to remove product from Redis cache"] else [])

/-- Tail of `CreateNewProducts` (part_000:300-316): on database success a
failing `AddProductsToCache` is only logged and the handler still
returns 201. -/
def CreateNewProducts (dbOk : Bool) (cacheFails : Bool) :
    HttpResponse × List String :=
  if dbOk then
    ({ status := 201, success := true, xCache := none },
     if cacheFails then ["Warning: Failed to cache products in Redis"] else [])
  else
    ({ status := 500, success := false, xCache := none }, [])

/-! ### Invariants and fixtures -/

/-- The derived-totals invariant of the spec: subtotal, tax, shipping,
total and item count agree with the current items. -/
def cartInv (c : Cart) : Prop :=
  c.Subtotal = itemsSubtotal c.Items ∧
  c.Tax = c.Subtotal * 0.10 ∧
  c.Shipping = (if 0 < c.Subtotal ∧ c.Subtotal < 50 then (5.99 : ℚ) else 0) ∧
  c.Total = c.Subtotal + c.Tax + c.Shipping ∧
  c.ItemCount = itemsQuantity c.Items

/-- Lifts `cartInv` over a fallible cart mutation: on error there is no
returned cart. -/
def cartResultInv : Except String (Cart × Store) → Prop
  | .ok r => cartInv r.1
  | .error _ => True

/-- Boolean success test for `Except`. -/
def exceptIsOk : Except String α → Bool
  | .ok _ => true
  | .error _ => false

/-- Boolean test that an `Except` is exactly the given error message. -/
def exceptIsErrMsg (r : Except String α) (msg : String) : Bool :=
  match r with
  | .error e => e == msg
  | .ok _ => false

/-- Concrete product fixture, SKU "A", price 10.00. -/
def prodA : Product :=
  { ID := "pid-a", SKU := "A", Name := "Widget", Description := "",
    Category := "toys", Subcategory := "", Brand := "Acme", Price := 10,
    Currency := "CAD", Stock := ⟨0, 0, 0, 0⟩, Attributes := [], Images := [],
    Ratings := ⟨0, 0⟩, Tags := [], Status := "active",
    CreatedAt := "t0", UpdatedAt := "t0" }

/-- Concrete product fixture, SKU "B", price 3.00. -/
def prodB : Product :=
  { ID := "pid-b", SKU := "B", Name := "Gadget", Description := "",
    Category := "toys", Subcategory := "", Brand := "Acme", Price := 3,
    Currency := "CAD", Stock := ⟨0, 0, 0, 0⟩, Attributes := [], Images := [],
    Ratings := ⟨0, 0⟩, Tags := [], Status := "active",
    CreatedAt := "t0", UpdatedAt := "t0" }

/-! ### Keyspace lemmas -/

theorem getK_delK_self : ∀ (s : Store) (k : RKey), getK (delK s k) k = none
  | [], _ => rfl
  | (k0, v) :: rest, k => by
    by_cases h0 : k0 = k
    · simp only [delK, if_pos h0]
      exact getK_delK_self rest k
    · simp only [delK, if_neg h0, getK, if_neg h0]
      exact getK_delK_self rest k

theorem getK_delK_ne : ∀ (s : Store) {k k' : RKey}, k' ≠ k →
    getK (delK s k) k' = getK s k'
  | [], _, _, _ => rfl
  | (k0, v) :: rest, k, k', h => by
    by_cases h0 : k0 = k
    · subst h0
      simp only [delK, if_pos rfl, getK, if_neg (Ne.symm h)]
      exact getK_delK_ne rest h
    · simp only [delK, if_neg h0, getK]
      by_cases h1 : k0 = k'
      · rw [if_pos h1, if_pos h1]
      · rw [if_neg h1, if_neg h1]
        exact getK_delK_ne rest h

theorem getK_setK_self (s : Store) (k : RKey) (v : RVal) :
    getK (setK s k v) k = some v := by
  simp [setK, getK]

theorem getK_setK_ne (s : Store) {k k' : RKey} (h : k' ≠ k) (v : RVal) :
    getK (setK s k v) k' = getK s k' := by
  simp only [setK, getK, if_neg (Ne.symm h)]
  exact getK_delK_ne s h

theorem getK_lpushK_ne (s : Store) {k k' : RKey} (h : k' ≠ k) (x : String) :
    getK (lpushK s k x) k' = getK s k' := by
  unfold lpushK
  exact getK_setK_ne s h _

theorem getK_ltrimK_ne (s : Store) {k k' : RKey} (h : k' ≠ k) (n : Nat) :
    getK (ltrimK s k n) k' = getK s k' := by
  unfold ltrimK
  cases hg : getK s k with
  | none => rfl
  | some v =>
    cases v with
    | str w => rfl
    | prodJSON p => rfl
    | list xs => exact getK_setK_ne s h _
    | hash fs => rfl

theorem getK_lremK_ne (s : Store) {k k' : RKey} (h : k' ≠ k) (x : String) :
    getK (lremK s k x) k' = getK s k' := by
  unfold lremK
  cases hg : getK s k with
  | none => rfl
  | some v =>
    cases v with
    | str w => rfl
    | prodJSON p => rfl
    | list xs => exact getK_setK_ne s h _
    | hash fs => rfl

/-! ### Cart lemmas -/

theorem lookupItem_setItem_self : ∀ (items : List (String × CartItem))
    (sku : String) (it : CartItem),
    lookupItem (setItem items sku it) sku = some it
  | [], sku, it => by simp [setItem, lookupItem]
  | (k, old) :: rest, sku, it => by
    by_cases h : k = sku
    · simp [setItem, h, lookupItem]
    · simp [setItem, h, lookupItem, lookupItem_setItem_self rest sku it]

theorem calculateCartTotals_Items (c : Cart) :
    (calculateCartTotals c).Items = c.Items := rfl

theorem cartInv_calculate (c : Cart) (now exp : String) :
    cartInv { calculateCartTotals c with LastUpdated := now, ExpiresAt := exp } := by
  simp [cartInv, calculateCartTotals]

theorem addToCartBody_existing (cart : Cart) (sku : String) (q : Int)
    (p : Product) (now exp : String) (item : CartItem)
    (h : lookupItem cart.Items sku = some item) :
    lookupItem (addToCartBody cart sku q p now exp).Items sku =
      some { item with
             Quantity := item.Quantity + q,
             Subtotal := ((item.Quantity + q : Int) : ℚ) * item.Price } := by
  simp [addToCartBody, h, calculateCartTotals, lookupItem_setItem_self]

theorem itemBatches_length (sid : String) :
    ∀ items : List (String × CartItem),
      (itemBatches sid items).length = 2 * items.length
  | [] => rfl
  | (sku, it) :: rest => by
    simp [itemBatches, itemBatches_length sid rest]
    omega

theorem itemBatches_all_singleton (sid : String) :
    ∀ items : List (String × CartItem),
      (itemBatches sid items).all (fun b => b.length == 1) = true
  | [] => rfl
  | (sku, it) :: rest => by
    simp [itemBatches, itemBatches_all_singleton sid rest]

/-! ### Claim theorems -/

set_option maxRecDepth 100000

/-- Fixture: an empty-session cart after adding SKU "A", quantity 2, at
unit price 10.00 (the returned cart and the saved store). -/
def scenarioAdd1 : Cart × Store := AddToCart [] "sess" "A" 2 prodA "t1" "e1"

/-- Fixture: the state of `scenarioAdd1` after adding SKU "A" again with
quantity 3. -/
def scenarioAdd2 : Cart × Store := AddToCart scenarioAdd1.2 "sess" "A" 3 prodA "t2" "e2"

/-- Fixture: the cart item created by `scenarioAdd1`. -/
def c6Item : CartItem :=
  { ProductID := "pid-a", SKU := "A", ProductName := "Widget", Price := 10,
    Quantity := 2, Subtotal := 20, AddedAt := "t1" }

/-- Claim C1: after every cart mutation (`AddToCart`, `UpdateCartItem`,
`RemoveFromCart`) on any session, the returned cart satisfies:
subtotal = Σ item.Subtotal, tax = subtotal × 0.10, shipping = 5.99 when
0 < subtotal < 50 and 0 otherwise, total = subtotal + tax + shipping,
and item_count = Σ item.Quantity. -/
theorem C1_totals_consistent (s : Store) (sessionID sku : String) (q : Int)
    (p : Product) (now exp : String) :
    cartInv (AddToCart s sessionID sku q p now exp).1 ∧
    cartResultInv (UpdateCartItem s sessionID sku q now exp) ∧
    cartResultInv (RemoveFromCart s sessionID sku now exp) := by
  refine ⟨?_, ?_, ?_⟩
  · show cartInv (addToCartBody (GetCart s sessionID now exp) sku q p now exp)
    unfold addToCartBody
    exact cartInv_calculate _ _ _
  · unfold UpdateCartItem
    cases h : lookupItem (GetCart s sessionID now exp).Items sku with
    | none => simp [h, cartResultInv]
    | some item =>
      simp only [h, cartResultInv]
      exact cartInv_calculate _ _ _
  · unfold RemoveFromCart UpdateCartItem
    cases h : lookupItem (GetCart s sessionID now exp).Items sku with
    | none => simp [h, cartResultInv]
    | some item =>
      simp only [h, cartResultInv]
      exact cartInv_calculate _ _ _

/-- Claim C2: for every product P, `CacheSingleProduct` followed by
`GetProductBySKUFromCache P.SKU` returns exactly P — the lookup follows
the `sku:{sku}` index to the `product:{sku}` body and the marshalled
round trip is the identity. -/
theorem C2_put_then_getBySKU (s : Store) (p : Product) :
    GetProductBySKUFromCache (CacheSingleProduct s p) p.SKU = some p := by
  have h1 : RKey.skuIdx p.SKU ≠ RKey.recent := fun h => RKey.noConfusion h
  have h2 : RKey.skuIdx p.SKU ≠ RKey.category p.Category := fun h => RKey.noConfusion h
  have h3 : RKey.product p.SKU ≠ RKey.recent := fun h => RKey.noConfusion h
  have h4 : RKey.product p.SKU ≠ RKey.category p.Category := fun h => RKey.noConfusion h
  have h5 : RKey.product p.SKU ≠ RKey.skuIdx p.SKU := fun h => RKey.noConfusion h
  have hsku : getK (CacheSingleProduct s p) (.skuIdx p.SKU) = some (.str p.SKU) := by
    unfold CacheSingleProduct
    rw [getK_ltrimK_ne _ h1, getK_lpushK_ne _ h1, getK_lpushK_ne _ h2, getK_setK_self]
  have hprod : getK (CacheSingleProduct s p) (.product p.SKU) = some (.prodJSON p) := by
    unfold CacheSingleProduct
    rw [getK_ltrimK_ne _ h3, getK_lpushK_ne _ h3, getK_lpushK_ne _ h4,
        getK_setK_ne _ h5, getK_setK_self]
  simp [GetProductBySKUFromCache, GetProductFromCache, hsku, hprod]

/-- Claim C9: for every product P, put then remove then lookup-by-SKU is
a cache miss: `RemoveProductFromCache` deletes both `product:{sku}` and
`sku:{sku}`, so `GetProductBySKUFromCache` fails at its first GET. -/
theorem C9_put_remove_getBySKU_miss (s : Store) (p : Product) :
    GetProductBySKUFromCache (RemoveProductFromCache (CacheSingleProduct s p) p) p.SKU =
      none := by
  have h1 : RKey.skuIdx p.SKU ≠ RKey.recent := fun h => RKey.noConfusion h
  have h2 : RKey.skuIdx p.SKU ≠ RKey.category p.Category := fun h => RKey.noConfusion h
  have hsku : getK (RemoveProductFromCache (CacheSingleProduct s p) p) (.skuIdx p.SKU) =
      none := by
    unfold RemoveProductFromCache
    rw [getK_lremK_ne _ h1, getK_lremK_ne _ h2, getK_delK_self]
  simp [GetProductBySKUFromCache, hsku]

/-- Claim C6: when `AddToCart` hits a SKU already in the cart, the item
quantity increases by the given amount and the subtotal is recomputed
from the item's snapshotted unit price (`item.Price`), not from the
product passed to the call; and in the concrete scenario — add SKU "A"
qty 2 at price 10.00, then add SKU "A" qty 3 — the item ends with
quantity 5 and subtotal 50.00, and the cart with subtotal 50.00,
shipping 0, tax 5.00, total 55.00. -/
theorem C6_addItem_existing_uses_snapshot_price (cart : Cart) (sku : String)
    (q : Int) (p : Product) (now exp : String) (item : CartItem)
    (h : lookupItem cart.Items sku = some item) :
    (lookupItem (addToCartBody cart sku q p now exp).Items sku =
      some { item with
             Quantity := item.Quantity + q,
             Subtotal := ((item.Quantity + q : Int) : ℚ) * item.Price }) ∧
    (lookupItem scenarioAdd2.1.Items "A" =
      some { ProductID := "pid-a", SKU := "A", ProductName := "Widget",
             Price := 10, Quantity := 5, Subtotal := 50, AddedAt := "t1" }) ∧
    scenarioAdd2.1.Subtotal = 50 ∧ scenarioAdd2.1.Shipping = 0 ∧
    scenarioAdd2.1.Tax = 5 ∧ scenarioAdd2.1.Total = 55 := by
  refine ⟨addToCartBody_existing cart sku q p now exp item h, ?_⟩
  with_unfolding_all decide

/-- Witness for C6 at a concrete input: the item created by the first
scenario add is present, and a second add (with a different product
snapshot, price 3.00) still prices the item at its snapshotted 10.00. -/
theorem C6_witness :
    lookupItem scenarioAdd1.1.Items "A" = some c6Item ∧
    ((lookupItem (addToCartBody scenarioAdd1.1 "A" 3 prodB "t2" "e2").Items "A" =
       some { c6Item with
              Quantity := c6Item.Quantity + 3,
              Subtotal := ((c6Item.Quantity + 3 : Int) : ℚ) * c6Item.Price }) ∧
     (lookupItem scenarioAdd2.1.Items "A" =
       some { ProductID := "pid-a", SKU := "A", ProductName := "Widget",
              Price := 10, Quantity := 5, Subtotal := 50, AddedAt := "t1" }) ∧
     scenarioAdd2.1.Subtotal = 50 ∧ scenarioAdd2.1.Shipping = 0 ∧
     scenarioAdd2.1.Tax = 5 ∧ scenarioAdd2.1.Total = 55) :=
  ⟨by with_unfolding_all decide,
   C6_addItem_existing_uses_snapshot_price scenarioAdd1.1 "A" 3 prodB "t2" "e2"
     c6Item (by with_unfolding_all decide)⟩

/-- Claim C10: `AddToCart` on a SKU already in the cart mutates only the
item's Quantity and Subtotal; ProductID, SKU, ProductName, Price and
AddedAt are preserved — in particular the original added-at timestamp is
kept. -/
theorem C10_addItem_frame (cart : Cart) (sku : String) (q : Int)
    (p : Product) (now exp : String) (item : CartItem)
    (h : lookupItem cart.Items sku = some item) :
    ∃ it2,
      lookupItem (addToCartBody cart sku q p now exp).Items sku = some it2 ∧
      it2.ProductID = item.ProductID ∧ it2.SKU = item.SKU ∧
      it2.ProductName = item.ProductName ∧ it2.Price = item.Price ∧
      it2.AddedAt = item.AddedAt ∧
      it2.Quantity = item.Quantity + q ∧
      it2.Subtotal = ((item.Quantity + q : Int) : ℚ) * item.Price :=
  ⟨_, addToCartBody_existing cart sku q p now exp item h,
   rfl, rfl, rfl, rfl, rfl, rfl, rfl⟩

/-- Witness for C10 at a concrete input: a second add of quantity 4 with
a different product snapshot leaves every field but Quantity and
Subtotal unchanged. -/
theorem C10_witness :
    lookupItem scenarioAdd1.1.Items "A" = some c6Item ∧
    (∃ it2,
      lookupItem (addToCartBody scenarioAdd1.1 "A" 4 prodB "t9" "e9").Items "A" =
        some it2 ∧
      it2.ProductID = c6Item.ProductID ∧ it2.SKU = c6Item.SKU ∧
      it2.ProductName = c6Item.ProductName ∧ it2.Price = c6Item.Price ∧
      it2.AddedAt = c6Item.AddedAt ∧
      it2.Quantity = c6Item.Quantity + 4 ∧
      it2.Subtotal = ((c6Item.Quantity + 4 : Int) : ℚ) * c6Item.Price) :=
  ⟨by with_unfolding_all decide,
   C10_addItem_frame scenarioAdd1.1 "A" 4 prodB "t9" "e9" c6Item
     (by with_unfolding_all decide)⟩

/-- Claim C7: for a session whose cart key does not exist, `GetCart`
returns a freshly constructed empty cart (empty item map, item count 0,
all totals 0) and issues only read commands — no cache write. -/
theorem C7_getCart_absent (s : Store) (sessionID now exp : String)
    (h : existsK s (.cart sessionID) = false) :
    GetCart s sessionID now exp = createEmptyCart sessionID now exp ∧
    (GetCart s sessionID now exp).Items = [] ∧
    (GetCart s sessionID now exp).ItemCount = 0 ∧
    (GetCart s sessionID now exp).Subtotal = 0 ∧
    (GetCart s sessionID now exp).Tax = 0 ∧
    (GetCart s sessionID now exp).Shipping = 0 ∧
    (GetCart s sessionID now exp).Total = 0 ∧
    (GetCartCmds s sessionID).all (fun c => !c.isWrite) = true := by
  simp [GetCart, h, GetCartCmds, createEmptyCart, Cmd.isWrite]

/-- Witness for C7 on the empty store and a never-seen session ID. -/
theorem C7_witness :
    existsK [] (.cart "nobody") = false ∧
    GetCart [] "nobody" "t1" "e1" = createEmptyCart "nobody" "t1" "e1" :=
  ⟨rfl, (C7_getCart_absent [] "nobody" "t1" "e1" rfl).1⟩

/-- Claim C8: when the database step of a product create/update/delete
succeeds, a failing cache step never changes the outcome reported to the
caller: the handler's response is the same with and without the cache
failure, and it is a success response (the cache error is only logged). -/
theorem C8_cache_failure_not_propagated (p : Product) (db : StoreResult)
    (dbOk cacheFails : Bool) :
    (EditProductBySKU (.ok p) cacheFails).1 =
      { status := 200, success := true, xCache := some "REFRESHED" } ∧
    (DeleteProductBySKU (.ok p) cacheFails).1 =
      { status := 200, success := true, xCache := some "DELETED" } ∧
    (CreateNewProducts true cacheFails).1 =
      { status := 201, success := true, xCache := none } ∧
    (EditProductBySKU db true).1 = (EditProductBySKU db false).1 ∧
    (DeleteProductBySKU db true).1 = (DeleteProductBySKU db false).1 ∧
    (CreateNewProducts dbOk true).1 = (CreateNewProducts dbOk false).1 := by
  cases db <;> cases dbOk <;> cases cacheFails <;>
    simp [EditProductBySKU, DeleteProductBySKU, CreateNewProducts]

/-! ### C3: removing an item twice -/

/-- Fixture: store after adding SKU "A" (quantity 1) to a fresh cart. -/
def c3Store1 : Store := (AddToCart [] "sess" "A" 1 prodA "t1" "e1").2

/-- Fixture: the result of the first `RemoveFromCart` on that store. -/
def c3FirstRemove : Except String (Cart × Store) :=
  RemoveFromCart c3Store1 "sess" "A" "t2" "e2"

/-- Fixture: the store left behind by the first, successful removal. -/
def c3Store2 : Store :=
  match c3FirstRemove with
  | .ok r => r.2
  | .error _ => []

/-- Claim C3 counterexample: the first `RemoveFromCart` succeeds, but the
second call on the resulting store returns the error
`item not found in cart` instead of being an error-free no-op. -/
theorem C3_counterexample :
    exceptIsOk c3FirstRemove = true ∧
    exceptIsErrMsg (RemoveFromCart c3Store2 "sess" "A" "t3" "e3")
      "item not found in cart" = true := by
  with_unfolding_all decide

/-- Claim C3 amended: `RemoveFromCart` on a SKU that is not in the
session's cart — in particular any second removal in a row — fails with
`item not found in cart` and performs no save; it is not an error-free
no-op. -/
theorem C3_second_remove_errors (s : Store) (sessionID sku now exp : String)
    (h : lookupItem (GetCart s sessionID now exp).Items sku = none) :
    RemoveFromCart s sessionID sku now exp = .error "item not found in cart" := by
  unfold RemoveFromCart UpdateCartItem
  simp [h]

/-- Witness for the amended C3 on the store left by the first removal. -/
theorem C3_amended_witness :
    lookupItem (GetCart c3Store2 "sess" "t3" "e3").Items "A" = none ∧
    RemoveFromCart c3Store2 "sess" "A" "t3" "e3" =
      .error "item not found in cart" :=
  ⟨by with_unfolding_all decide,
   C3_second_remove_errors c3Store2 "sess" "A" "t3" "e3"
     (by with_unfolding_all decide)⟩

/-! ### C4: batch caching and partial failure -/

/-- Failure oracle making the cache pipeline fail exactly for SKU "A". -/
def failsOnA : Product → Bool := fun p => p.SKU == "A"

/-- Claim C4 counterexample: with products [A, B] and a pipeline failure
on A, only A is attempted — B is never attempted — and the batch returns
an error instead of continuing. -/
theorem C4_counterexample :
    (AddProductsToCache failsOnA [] [prodA, prodB]).2 = ["A"] ∧
    exceptIsOk (AddProductsToCache failsOnA [] [prodA, prodB]).1 = false := by
  with_unfolding_all decide

/-- Claim C4 amended: `AddProductsToCache` stops at the first product
whose cache pipeline fails, returning an error that wraps the failing
SKU; the products after it are not attempted.  (The callers still treat
that error as best-effort: they log it and let the request succeed, as
proved for the handler tails in the C8 theorem.) -/
theorem C4_stops_at_first_failure (pipelineFails : Product → Bool) (s : Store)
    (p : Product) (rest : List Product) (h : pipelineFails p = true) :
    AddProductsToCache pipelineFails s (p :: rest) =
      (.error ("failed to cache product " ++ p.SKU), [p.SKU]) := by
  simp [AddProductsToCache, h]

/-- Witness for the amended C4 at the concrete batch [A, B]. -/
theorem C4_amended_witness :
    failsOnA prodA = true ∧
    AddProductsToCache failsOnA [] [prodA, prodB] =
      (.error ("failed to cache product " ++ prodA.SKU), [prodA.SKU]) :=
  ⟨rfl, C4_stops_at_first_failure failsOnA [] prodA [prodB] rfl⟩

/-! ### C5: pipeline atomicity -/

/-- Fixture: a cart holding one item, as returned by `AddToCart`. -/
def c5Cart : Cart := (AddToCart [] "sess" "A" 1 prodA "t1" "e1").1

/-- Claim C5 counterexample: saving a one-item cart does not issue a
single atomic pipeline — it issues four separate single-command batches
(metadata HSET, its EXPIRE, the item HSET, its EXPIRE). -/
theorem C5_counterexample :
    ((saveCartToRedisBatches c5Cart).length == 1) = false ∧
    (saveCartToRedisBatches c5Cart).length = 4 := by
  with_unfolding_all decide

/-- Claim C5 amended: the product cache mutations (`CacheSingleProduct`
and `RemoveProductFromCache`) are each issued as one atomic pipeline,
but a cart save is not: `saveCartToRedis` issues `2 + 2·(number of
items)` batches, every one a stand-alone single command, so intermediate
states between the metadata write and the item writes are observable. -/
theorem C5_products_atomic_cart_not (p : Product) (cart : Cart) :
    (CacheSingleProductBatches p).length = 1 ∧
    (RemoveProductFromCacheBatches p).length = 1 ∧
    (saveCartToRedisBatches cart).length = 2 + 2 * cart.Items.length ∧
    (saveCartToRedisBatches cart).all (fun b => b.length == 1) = true := by
  refine ⟨rfl, rfl, ?_, ?_⟩
  · simp [saveCartToRedisBatches, itemBatches_length]
    omega
  · simp [saveCartToRedisBatches, itemBatches_all_singleton]

end PlarCache
